import Mathlib

/-!
Shallow embedding of the computation core of `apppumpsv2.py` (pump energy
analysis app).  Python floats are modelled as real numbers (`ℝ`), with
Python's `float('inf')` sentinel modelled by `⊤ : EReal`.  A Python
`KeyError` on the fluid lookup is modelled by `Option` (`none` = the call
raises).  Real division in Lean is total (`x / 0 = 0`); where a Python
division could actually fault this is discussed at the theorem concerned.
-/

namespace Pumps

/-- Fluid properties: density `rho` (kg/m³) and kinematic viscosity `nu` (m²/s). -/
structure Fluido where
  rho : ℝ
  nu : ℝ

/-- The fixed fluid table `FLUIDOS` of the source (4 entries). -/
noncomputable def FLUIDOS : List (String × Fluido) :=
  [("Água a 20°C", ⟨998.2, 1.004e-6⟩),
   ("Etanol a 20°C", ⟨789.0, 1.51e-6⟩),
   ("Glicerina a 20°C", ⟨1261.0, 1.49e-3⟩),
   ("Óleo Leve (genérico)", ⟨880.0, 1.5e-5⟩)]

/-- Result of `calcular_perda_carga` on the finite (diameter > 0) path. -/
structure PerdaCargaFin where
  principal : ℝ
  localizada : ℝ
  velocidade : ℝ

/-- Result dictionary of `calcular_perda_carga`; fields live in `EReal`
because the source returns `float('inf')` for non-positive diameters. -/
structure PerdaCarga where
  principal : EReal
  localizada : EReal
  velocidade : EReal

/-- `velocidade = vazao_m3s / area`, `area = π d² / 4` (source lines 37-38). -/
noncomputable def velocidade_calc (vazao_m3h diametro_mm : ℝ) : ℝ :=
  (vazao_m3h / 3600) / ((Real.pi * (diametro_mm / 1000) ^ 2) / 4)

/-- `reynolds = velocidade * diametro_m / nu if nu > 0 else 0` (source line 41). -/
noncomputable def reynolds_calc (vazao_m3h diametro_mm nu : ℝ) : ℝ :=
  if 0 < nu then (velocidade_calc vazao_m3h diametro_mm * (diametro_mm / 1000)) / nu else 0

/-- `termo_log = rugosidade_m / (3.7 diametro_m) + 5.74 / reynolds**0.9` (source line 47). -/
noncomputable def termo_log_calc (vazao_m3h diametro_mm rugosidade_mm nu : ℝ) : ℝ :=
  ((rugosidade_mm / 1000) / (3.7 * (diametro_mm / 1000))) +
    5.74 / (reynolds_calc vazao_m3h diametro_mm nu) ^ (0.9 : ℝ)

/-- Friction factor selection of source lines 44-51 (Swamee-Jain / laminar / 0). -/
noncomputable def fator_atrito_calc (vazao_m3h diametro_mm rugosidade_mm nu : ℝ) : ℝ :=
  if 4000 < reynolds_calc vazao_m3h diametro_mm nu then
    (if 0 < termo_log_calc vazao_m3h diametro_mm rugosidade_mm nu then
      0.25 / (Real.logb 10 (termo_log_calc vazao_m3h diametro_mm rugosidade_mm nu)) ^ 2
    else 0)
  else if 0 < reynolds_calc vazao_m3h diametro_mm nu then
    64 / reynolds_calc vazao_m3h diametro_mm nu
  else 0

/-- The finite (diameter > 0) path of `calcular_perda_carga` (source lines 28-63). -/
noncomputable def perda_carga_fin (vazao_m3h diametro_mm comprimento_m rugosidade_mm k_total nu : ℝ) :
    PerdaCargaFin :=
  let diametro_m := diametro_mm / 1000
  let velocidade := velocidade_calc vazao_m3h diametro_mm
  let fator_atrito := fator_atrito_calc vazao_m3h diametro_mm rugosidade_mm nu
  { principal := fator_atrito * (comprimento_m / diametro_m) * (velocidade ^ 2 / (2 * 9.81))
    localizada := k_total * (velocidade ^ 2 / (2 * 9.81))
    velocidade := velocidade }

/-- Embed a finite head-loss result into the `EReal`-valued dictionary. -/
noncomputable def PerdaCargaFin.toE (p : PerdaCargaFin) : PerdaCarga :=
  ⟨(p.principal : ℝ), (p.localizada : ℝ), (p.velocidade : ℝ)⟩

/-- `calcular_perda_carga` (source lines 20-63).  `none` models the `KeyError`
raised when the fluid name is not in `FLUIDOS` (the lookup happens only after
the non-positive-diameter early return). -/
noncomputable def calcular_perda_carga (vazao_m3h diametro_mm comprimento_m rugosidade_mm k_total : ℝ)
    (fluido_selecionado : String) : Option PerdaCarga :=
  if diametro_mm ≤ 0 then some ⟨⊤, ⊤, ⊤⟩
  else
    match FLUIDOS.lookup fluido_selecionado with
    | none => none
    | some fl =>
        some (perda_carga_fin vazao_m3h diametro_mm comprimento_m rugosidade_mm k_total fl.nu).toE

/-- Result dictionary of `calcular_analise_energetica` (source lines 80-85). -/
structure Energia where
  potencia_eletrica_kW : ℝ
  consumo_mensal_kWh : ℝ
  custo_mensal : ℝ
  custo_anual : ℝ

/-- Body of `calcular_analise_energetica` after the fluid lookup (source lines 68-85). -/
noncomputable def energia_core (vazao_m3h h_man rho eficiencia_bomba eficiencia_motor horas_dia custo_kwh : ℝ) :
    Energia :=
  let g : ℝ := 9.81
  let vazao_m3s := vazao_m3h / 3600
  let potencia_hidraulica_W := vazao_m3s * rho * g * h_man
  let potencia_eixo_W := if 0 < eficiencia_bomba then potencia_hidraulica_W / eficiencia_bomba else 0
  let potencia_eletrica_W := if 0 < eficiencia_motor then potencia_eixo_W / eficiencia_motor else 0
  let potencia_eletrica_kW := potencia_eletrica_W / 1000
  let consumo_diario_kWh := potencia_eletrica_kW * horas_dia
  { potencia_eletrica_kW := potencia_eletrica_kW
    consumo_mensal_kWh := consumo_diario_kWh * 30
    custo_mensal := (consumo_diario_kWh * 30) * custo_kwh
    custo_anual := (consumo_diario_kWh * 365) * custo_kwh }

/-- `calcular_analise_energetica` (source lines 65-85); `none` models the
`KeyError` on an unknown fluid name. -/
noncomputable def calcular_analise_energetica (vazao_m3h h_man eficiencia_bomba eficiencia_motor horas_dia custo_kwh : ℝ)
    (fluido_selecionado : String) : Option Energia :=
  (FLUIDOS.lookup fluido_selecionado).map fun fl =>
    energia_core vazao_m3h h_man fl.rho eficiencia_bomba eficiencia_motor horas_dia custo_kwh

/-- Advisory messages of `gerar_sugestoes`, abstracted from their exact text
(the two velocity messages interpolate the formatted velocity, carried here
as the real argument). -/
inductive Sugestao
  | alerta_velocidade_alta (velocidade : ℝ)
  | atencao_velocidade_baixa (velocidade : ℝ)
  | bomba_ineficiente
  | motor_ineficiente
  | inversor_frequencia
  | manutencao_preventiva

/-- `gerar_sugestoes` (source lines 87-102): the appends occur in exactly the
source order. -/
noncomputable def gerar_sugestoes (eficiencia_bomba eficiencia_motor custo_anual velocidade : ℝ) :
    List Sugestao :=
  (if 3.0 < velocidade then [Sugestao.alerta_velocidade_alta velocidade]
   else if velocidade < 0.5 then [Sugestao.atencao_velocidade_baixa velocidade]
   else [])
  ++ (if eficiencia_bomba < 0.6 then [Sugestao.bomba_ineficiente] else [])
  ++ (if eficiencia_motor < 0.85 then [Sugestao.motor_ineficiente] else [])
  ++ (if 5000 < custo_anual then [Sugestao.inversor_frequencia] else [])
  ++ [Sugestao.manutencao_preventiva]

/-- `np.linspace start stop num`: `num` evenly spaced samples from `start` to
`stop` inclusive. -/
noncomputable def linspace (start stop : ℝ) (num : ℕ) : List ℝ :=
  (List.range num).map fun i : ℕ => start + (stop - start) * (i : ℝ) / ((num - 1 : ℕ) : ℝ)

/-- The diameter samples of `gerar_grafico_diametro_custo` (source line 149). -/
noncomputable def diametros_mm (diametro_base_mm : ℝ) : List ℝ :=
  linspace (max 25 (diametro_base_mm * 0.5)) (diametro_base_mm * 2) 20

/-- Annual cost on an `EReal` head, extending `energia_core` to the
`float('inf')` head produced by a non-positive sample diameter (only the
`custo_anual` field is read by the sweep's loop body).  Divergence note: at
`vazao_m3h = 0` with infinite head this gives `0` (EReal `0·⊤ = 0`) where
Python's `0.0 * inf` is `nan`; the keyword-binding model below makes this
expression unreachable anyway, since the energy call never binds. -/
noncomputable def custo_anual_ereal (vazao_m3h : ℝ) (h_man : EReal)
    (rho eficiencia_bomba eficiencia_motor horas_dia custo_kwh : ℝ) : EReal :=
  let potencia_hidraulica_W : EReal := ((vazao_m3h / 3600 * rho * 9.81 : ℝ) : EReal) * h_man
  let potencia_eixo_W : EReal :=
    if 0 < eficiencia_bomba then potencia_hidraulica_W * ((eficiencia_bomba⁻¹ : ℝ) : EReal) else 0
  let potencia_eletrica_W : EReal :=
    if 0 < eficiencia_motor then potencia_eixo_W * ((eficiencia_motor⁻¹ : ℝ) : EReal) else 0
  potencia_eletrica_W * (((1 / 1000) * horas_dia * 365 * custo_kwh : ℝ) : EReal)

/-- A Python keyword-argument value in this program: a float or the fluid
name string. -/
abbrev Val := ℝ ⊕ String

/-- Python keyword binding for a parameter list with no defaults and no
catch-all: the call binds iff the passed keyword names are exactly the
declared parameter names (no unexpected keyword, no missing required one);
otherwise the call raises `TypeError`. -/
def liga_parametros (parametros chaves : List String) : Prop :=
  (∀ k ∈ chaves, k ∈ parametros) ∧ (∀ p ∈ parametros, p ∈ chaves)

instance (parametros chaves : List String) : Decidable (liga_parametros parametros chaves) := by
  unfold liga_parametros
  infer_instance

/-- The declared parameters of `calcular_perda_carga` (source line 20). -/
def perda_carga_parametros : List String :=
  ["vazao_m3h", "diametro_mm", "comprimento_m", "rugosidade_mm", "k_total",
    "fluido_selecionado"]

/-- The declared parameters of `calcular_analise_energetica` (source line 65). -/
def analise_energetica_parametros : List String :=
  ["vazao_m3h", "h_man", "eficiencia_bomba", "eficiencia_motor", "horas_dia", "custo_kwh",
    "fluido_selecionado"]

/-- Read a float keyword value (a wrong-typed value would also fault). -/
def getR (kwargs : List (String × Val)) (k : String) : Option ℝ :=
  match kwargs.lookup k with
  | some (Sum.inl x) => some x
  | _ => none

/-- Read a string keyword value. -/
def getS (kwargs : List (String × Val)) (k : String) : Option String :=
  match kwargs.lookup k with
  | some (Sum.inr s) => some s
  | _ => none

/-- The call `calcular_perda_carga(diametro_mm=d_mm, **kwargs)` of source
line 154: keyword binding against the callee's parameter list, then the
function body; `none` models the `TypeError` on a key-set mismatch. -/
noncomputable def calcular_perda_carga_kw (diametro_mm : ℝ) (kwargs : List (String × Val)) :
    Option PerdaCarga :=
  if liga_parametros perda_carga_parametros ("diametro_mm" :: kwargs.map Prod.fst) then
    match getR kwargs "vazao_m3h", getR kwargs "comprimento_m", getR kwargs "rugosidade_mm",
        getR kwargs "k_total", getS kwargs "fluido_selecionado" with
    | some v, some c, some r, some k, some f => calcular_perda_carga v diametro_mm c r k f
    | _, _, _, _, _ => none
  else none

/-- The call `calcular_analise_energetica(h_man=h_man_calculado, **kwargs)` of
source line 158, with the same keyword-binding discipline. -/
noncomputable def calcular_analise_energetica_kw (h_man : EReal)
    (kwargs : List (String × Val)) : Option EReal :=
  if liga_parametros analise_energetica_parametros ("h_man" :: kwargs.map Prod.fst) then
    match getR kwargs "vazao_m3h", getR kwargs "eficiencia_bomba",
        getR kwargs "eficiencia_motor", getR kwargs "horas_dia", getR kwargs "custo_kwh",
        getS kwargs "fluido_selecionado" with
    | some v, some eb, some em, some hd, some ck, some f =>
        (FLUIDOS.lookup f).map fun fl => custo_anual_ereal v h_man fl.rho eb em hd ck
    | _, _, _, _, _, _ => none
  else none

/-- `gerar_grafico_diametro_custo` (source lines 146-165): for each sample
diameter the loop body forwards one and the same `**kwargs` dict to
`calcular_perda_carga` and then to `calcular_analise_energetica`; the
sequential `mapM` models exception propagation out of the `for` loop. -/
noncomputable def gerar_grafico_diametro_custo (diametro_base_mm h_geometrica : ℝ)
    (kwargs : List (String × Val)) : Option (List (ℝ × EReal)) :=
  (diametros_mm diametro_base_mm).mapM fun d_mm =>
    (calcular_perda_carga_kw d_mm kwargs).bind fun perdas =>
      (calcular_analise_energetica_kw
          ((h_geometrica : ℝ) + perdas.principal + perdas.localizada) kwargs).map
        fun custo => (d_mm, custo)

/-- The merged keyword dict `params_gerais` built by the app for the chart
(source lines 240-252), with the sidebar's default values. -/
noncomputable def params_gerais : List (String × Val) :=
  [("vazao_m3h", Sum.inl 50), ("comprimento_m", Sum.inl 100),
    ("rugosidade_mm", Sum.inl 0.15), ("k_total", Sum.inl 5),
    ("fluido_selecionado", Sum.inr "Água a 20°C"), ("eficiencia_bomba", Sum.inl 0.7),
    ("eficiencia_motor", Sum.inl 0.9), ("horas_dia", Sum.inl 8),
    ("custo_kwh", Sum.inl 0.75)]

/-- One point of the sweep pipeline on the finite path (the loop body of
source lines 152-159 for a positive sample diameter): friction losses at
diameter `diametro_mm`, then the annual energy cost at total head
`h_geometrica + principal + localizada`. -/
noncomputable def custo_anual_pipeline
    (vazao_m3h diametro_mm comprimento_m rugosidade_mm k_total h_geometrica rho nu
      eficiencia_bomba eficiencia_motor horas_dia custo_kwh : ℝ) : ℝ :=
  let p := perda_carga_fin vazao_m3h diametro_mm comprimento_m rugosidade_mm k_total nu
  (energia_core vazao_m3h (h_geometrica + p.principal + p.localizada) rho
    eficiencia_bomba eficiencia_motor horas_dia custo_kwh).custo_anual

/-- Numeric helper: any Reynolds number past the turbulent threshold has
`Re ^ 0.9 ≥ 250`. -/
theorem rpow_09_lower (x : ℝ) (hx : 4000 ≤ x) : (250 : ℝ) ≤ x ^ (0.9 : ℝ) := by
  have h4000 : (250 : ℝ) ≤ (4000 : ℝ) ^ (0.9 : ℝ) := by
    have hacube : ((4000 : ℝ) ^ ((3 : ℝ)⁻¹)) ^ (3 : ℕ) = 4000 :=
      Real.rpow_inv_natCast_pow (by norm_num) (by norm_num)
    have h13 : (4000 : ℝ) ^ ((3 : ℝ)⁻¹) ≤ 16 := by
      by_contra hgt
      push_neg at hgt
      have hcube : (16 : ℝ) ^ (3 : ℕ) < ((4000 : ℝ) ^ ((3 : ℝ)⁻¹)) ^ (3 : ℕ) :=
        pow_lt_pow_left₀ hgt (by norm_num) (by norm_num)
      rw [hacube] at hcube
      norm_num at hcube
    have h01 : (4000 : ℝ) ^ (0.1 : ℝ) ≤ (4000 : ℝ) ^ ((3 : ℝ)⁻¹) :=
      Real.rpow_le_rpow_of_exponent_le (by norm_num) (by norm_num)
    have hpos : (0 : ℝ) < (4000 : ℝ) ^ (0.1 : ℝ) := Real.rpow_pos_of_pos (by norm_num) _
    have hsplit : (4000 : ℝ) ^ (0.9 : ℝ) = (4000 : ℝ) ^ (1 : ℝ) / (4000 : ℝ) ^ (0.1 : ℝ) := by
      rw [← Real.rpow_sub (by norm_num)]
      norm_num
    rw [hsplit, Real.rpow_one, le_div_iff₀ hpos]
    nlinarith [h01, h13]
  calc (250 : ℝ) ≤ (4000 : ℝ) ^ (0.9 : ℝ) := h4000
    _ ≤ x ^ (0.9 : ℝ) := Real.rpow_le_rpow (by norm_num) hx (by norm_num)

/-- The water scenario of C9/C4/C8: velocity at flow 50 m³/h through a
100 mm pipe is `50 / (9π)`. -/
theorem velocidade_50_100 : velocidade_calc 50 100 = 50 / (9 * Real.pi) := by
  unfold velocidade_calc
  have hπ : Real.pi ≠ 0 := Real.pi_ne_zero
  field_simp
  ring

/-- Velocity bounds in the water scenario. -/
theorem velocidade_50_100_bounds :
    (1.76 : ℝ) < velocidade_calc 50 100 ∧ velocidade_calc 50 100 < 1.78 := by
  have hπ1 : (3.141592 : ℝ) < Real.pi := Real.pi_gt_d6
  have hπ2 : Real.pi < 3.15 := Real.pi_lt_d2
  constructor
  · rw [velocidade_50_100, lt_div_iff₀ (by positivity)]
    nlinarith
  · rw [velocidade_50_100, div_lt_iff₀ (by positivity)]
    nlinarith

/-- The Reynolds number of the water scenario is turbulent. -/
theorem reynolds_50_100_turbulento : (4000 : ℝ) < reynolds_calc 50 100 1.004e-6 := by
  have hre_eq : reynolds_calc 50 100 1.004e-6 =
      velocidade_calc 50 100 * (100 / 1000) / 1.004e-6 := by
    unfold reynolds_calc
    rw [if_pos (by norm_num)]
  rw [hre_eq, lt_div_iff₀ (by norm_num)]
  nlinarith [velocidade_50_100_bounds.1]

/-- C2: for every input with `diametro_mm ≤ 0`, `calcular_perda_carga` returns
normally (no error) with velocity, major loss and minor loss all `+∞`. -/
theorem perda_carga_diametro_invalido_spec
    (vazao_m3h diametro_mm comprimento_m rugosidade_mm k_total : ℝ) (fluido : String)
    (hd : diametro_mm ≤ 0) :
    calcular_perda_carga vazao_m3h diametro_mm comprimento_m rugosidade_mm k_total fluido =
      some ⟨⊤, ⊤, ⊤⟩ := by
  simp [calcular_perda_carga, hd]

/-- Witness for C2 at diameter `0`. -/
theorem perda_carga_diametro_invalido_witness :
    (0 : ℝ) ≤ 0 ∧
      calcular_perda_carga 50 0 100 0.15 5 "Água a 20°C" = some ⟨⊤, ⊤, ⊤⟩ :=
  ⟨le_refl 0, perda_carga_diametro_invalido_spec 50 0 100 0.15 5 "Água a 20°C" (le_refl 0)⟩

/-- C10: the fluid table has exactly the 4 fixed names; for a name outside it,
both `calcular_perda_carga` (with positive diameter) and
`calcular_analise_energetica` fail with the key error (`none`) instead of
returning a sentinel result. -/
theorem fluido_desconhecido_spec
    (vazao_m3h diametro_mm comprimento_m rugosidade_mm k_total h_man
      eficiencia_bomba eficiencia_motor horas_dia custo_kwh : ℝ) (fluido : String)
    (hd : 0 < diametro_mm) (hnone : FLUIDOS.lookup fluido = none) :
    FLUIDOS.map Prod.fst =
        ["Água a 20°C", "Etanol a 20°C", "Glicerina a 20°C", "Óleo Leve (genérico)"] ∧
    calcular_perda_carga vazao_m3h diametro_mm comprimento_m rugosidade_mm k_total fluido = none ∧
    calcular_analise_energetica vazao_m3h h_man eficiencia_bomba eficiencia_motor horas_dia
        custo_kwh fluido = none := by
  refine ⟨by simp [FLUIDOS], ?_, ?_⟩
  · simp [calcular_perda_carga, hnone, hd.not_le]
  · simp [calcular_analise_energetica, hnone]

/-- Witness for C10 at the unknown fluid name `"Mercúrio"`. -/
theorem fluido_desconhecido_witness :
    ((0 : ℝ) < 100 ∧ FLUIDOS.lookup "Mercúrio" = none) ∧
      (FLUIDOS.map Prod.fst =
          ["Água a 20°C", "Etanol a 20°C", "Glicerina a 20°C", "Óleo Leve (genérico)"] ∧
        calcular_perda_carga 50 100 100 0.15 5 "Mercúrio" = none ∧
        calcular_analise_energetica 50 30 0.7 0.9 8 0.75 "Mercúrio" = none) :=
  ⟨⟨by norm_num, by simp [FLUIDOS]⟩,
    fluido_desconhecido_spec 50 100 100 0.15 5 30 0.7 0.9 8 0.75 "Mercúrio"
      (by norm_num) (by simp [FLUIDOS])⟩

/-- C3: `calcular_analise_energetica` computes the monthly figures on a 30-day
basis and the annual figure on a 365-day basis; hence the annual cost is not
12 times the monthly cost in general (checked on a concrete instance). -/
theorem analise_energetica_bases_spec
    (vazao_m3h h_man eficiencia_bomba eficiencia_motor horas_dia custo_kwh : ℝ)
    (fluido : String) (fl : Fluido) (hlook : FLUIDOS.lookup fluido = some fl) :
    (∀ e : Energia,
      calcular_analise_energetica vazao_m3h h_man eficiencia_bomba eficiencia_motor horas_dia
          custo_kwh fluido = some e →
        e.consumo_mensal_kWh = (e.potencia_eletrica_kW * horas_dia) * 30 ∧
        e.custo_mensal = e.consumo_mensal_kWh * custo_kwh ∧
        e.custo_anual = ((e.potencia_eletrica_kW * horas_dia) * 365) * custo_kwh) ∧
    (∀ e : Energia,
      calcular_analise_energetica 3600 1 1 1 1 1 "Água a 20°C" = some e →
        e.custo_anual ≠ 12 * e.custo_mensal) := by
  constructor
  · intro e he
    simp only [calcular_analise_energetica, hlook, Option.map_some', Option.some_inj] at he
    subst he
    simp only [energia_core]
    refine ⟨by ring_nf, by ring_nf, by ring_nf⟩
  · intro e he
    simp only [calcular_analise_energetica, Option.map_some', Option.some_inj,
      show FLUIDOS.lookup "Água a 20°C" = some ⟨998.2, 1.004e-6⟩ by simp [FLUIDOS]] at he
    subst he
    norm_num [energia_core]

/-- Witness for C3 on water at flow 50 m³/h, head 30 m. -/
theorem analise_energetica_bases_witness :
    FLUIDOS.lookup "Água a 20°C" = some ⟨998.2, 1.004e-6⟩ ∧
    ((∀ e : Energia,
      calcular_analise_energetica 50 30 0.7 0.9 8 0.75 "Água a 20°C" = some e →
        e.consumo_mensal_kWh = (e.potencia_eletrica_kW * 8) * 30 ∧
        e.custo_mensal = e.consumo_mensal_kWh * 0.75 ∧
        e.custo_anual = ((e.potencia_eletrica_kW * 8) * 365) * 0.75) ∧
    (∀ e : Energia,
      calcular_analise_energetica 3600 1 1 1 1 1 "Água a 20°C" = some e →
        e.custo_anual ≠ 12 * e.custo_mensal)) :=
  ⟨by simp [FLUIDOS],
    analise_energetica_bases_spec 50 30 0.7 0.9 8 0.75 "Água a 20°C" ⟨998.2, 1.004e-6⟩
      (by simp [FLUIDOS])⟩

/-- C6: a non-positive pump or motor efficiency makes
`calcular_analise_energetica` return the all-zero result (no division fault);
with positive efficiencies the electrical power is the hydraulic power divided
by the pump then the motor efficiency. -/
theorem analise_energetica_eficiencia_spec
    (vazao_m3h h_man eficiencia_bomba eficiencia_motor horas_dia custo_kwh : ℝ)
    (fluido : String) (fl : Fluido) (hlook : FLUIDOS.lookup fluido = some fl) :
    ((eficiencia_bomba ≤ 0 ∨ eficiencia_motor ≤ 0) →
      calcular_analise_energetica vazao_m3h h_man eficiencia_bomba eficiencia_motor horas_dia
          custo_kwh fluido = some ⟨0, 0, 0, 0⟩) ∧
    (0 < eficiencia_bomba → 0 < eficiencia_motor →
      ∀ e : Energia,
        calcular_analise_energetica vazao_m3h h_man eficiencia_bomba eficiencia_motor horas_dia
            custo_kwh fluido = some e →
          e.potencia_eletrica_kW =
            (((vazao_m3h / 3600) * fl.rho * 9.81 * h_man) / eficiencia_bomba /
                eficiencia_motor) / 1000) := by
  constructor
  · rintro (hb | hm)
    · simp only [calcular_analise_energetica, hlook, Option.map_some', Option.some_inj]
      simp [energia_core, hb.not_lt]
    · simp only [calcular_analise_energetica, hlook, Option.map_some', Option.some_inj]
      simp [energia_core, hm.not_lt]
  · intro hb hm e he
    simp only [calcular_analise_energetica, hlook, Option.map_some', Option.some_inj] at he
    subst he
    simp [energia_core, hb, hm]

/-- In the water scenario the Swamee-Jain log argument lies strictly between
0 and 1, so the friction factor is strictly positive. -/
theorem fator_atrito_50_100_pos :
    0 < termo_log_calc 50 100 0.15 1.004e-6 ∧
      termo_log_calc 50 100 0.15 1.004e-6 < 1 ∧
      0 < fator_atrito_calc 50 100 0.15 1.004e-6 := by
  have hre := reynolds_50_100_turbulento
  have hpow : (250 : ℝ) ≤ reynolds_calc 50 100 1.004e-6 ^ (0.9 : ℝ) :=
    rpow_09_lower _ (le_of_lt hre)
  have hpowpos : (0 : ℝ) < reynolds_calc 50 100 1.004e-6 ^ (0.9 : ℝ) := by linarith
  have htermo_lb : 0 < termo_log_calc 50 100 0.15 1.004e-6 := by
    unfold termo_log_calc
    have h1 : (0 : ℝ) < (0.15 / 1000) / (3.7 * ((100 : ℝ) / 1000)) := by norm_num
    have h2 : (0 : ℝ) < 5.74 / reynolds_calc 50 100 1.004e-6 ^ (0.9 : ℝ) :=
      div_pos (by norm_num) hpowpos
    linarith
  have htermo_ub : termo_log_calc 50 100 0.15 1.004e-6 < 1 := by
    unfold termo_log_calc
    have h2 : 5.74 / reynolds_calc 50 100 1.004e-6 ^ (0.9 : ℝ) ≤ 5.74 / 250 :=
      div_le_div_of_nonneg_left (by norm_num) (by norm_num) hpow
    have h1 : (0.15 / 1000) / (3.7 * ((100 : ℝ) / 1000)) ≤ 0.001 := by norm_num
    linarith
  have hlog_neg : Real.logb 10 (termo_log_calc 50 100 0.15 1.004e-6) < 0 :=
    Real.logb_neg (by norm_num) htermo_lb htermo_ub
  refine ⟨htermo_lb, htermo_ub, ?_⟩
  have hfator_eq : fator_atrito_calc 50 100 0.15 1.004e-6 =
      0.25 / (Real.logb 10 (termo_log_calc 50 100 0.15 1.004e-6)) ^ 2 := by
    unfold fator_atrito_calc
    rw [if_pos hre, if_pos htermo_lb]
  rw [hfator_eq]
  have hlogne : Real.logb 10 (termo_log_calc 50 100 0.15 1.004e-6) ≠ 0 := ne_of_lt hlog_neg
  positivity

/-- C9: in the concrete water scenario (flow 50 m³/h, 100 mm pipe, 100 m
length, 0.15 mm roughness, K = 5) the velocity is ≈ 1.77 m/s, the flow is
turbulent, both losses are finite and strictly positive, and the downstream
energy analysis (pump 70 %, motor 90 %, 8 h/day, tariff 0.75) gives strictly
positive electrical power and annual cost. -/
theorem cenario_concreto_spec :
    FLUIDOS.lookup "Água a 20°C" = some ⟨998.2, 1.004e-6⟩ ∧
    |velocidade_calc 50 100 - 1.77| < 0.01 ∧
    4000 < reynolds_calc 50 100 1.004e-6 ∧
    0 < (perda_carga_fin 50 100 100 0.15 5 1.004e-6).principal ∧
    0 < (perda_carga_fin 50 100 100 0.15 5 1.004e-6).localizada ∧
    calcular_perda_carga 50 100 100 0.15 5 "Água a 20°C" =
      some (perda_carga_fin 50 100 100 0.15 5 1.004e-6).toE ∧
    calcular_analise_energetica 50
        ((perda_carga_fin 50 100 100 0.15 5 1.004e-6).principal +
          (perda_carga_fin 50 100 100 0.15 5 1.004e-6).localizada)
        0.7 0.9 8 0.75 "Água a 20°C" =
      some (energia_core 50
        ((perda_carga_fin 50 100 100 0.15 5 1.004e-6).principal +
          (perda_carga_fin 50 100 100 0.15 5 1.004e-6).localizada)
        998.2 0.7 0.9 8 0.75) ∧
    0 < (energia_core 50
        ((perda_carga_fin 50 100 100 0.15 5 1.004e-6).principal +
          (perda_carga_fin 50 100 100 0.15 5 1.004e-6).localizada)
        998.2 0.7 0.9 8 0.75).potencia_eletrica_kW ∧
    0 < (energia_core 50
        ((perda_carga_fin 50 100 100 0.15 5 1.004e-6).principal +
          (perda_carga_fin 50 100 100 0.15 5 1.004e-6).localizada)
        998.2 0.7 0.9 8 0.75).custo_anual := by
  have hvb := velocidade_50_100_bounds
  have hre := reynolds_50_100_turbulento
  have hfp := fator_atrito_50_100_pos
  have hv2 : (0 : ℝ) < velocidade_calc 50 100 ^ 2 := by nlinarith [hvb.1]
  have hprincipal : 0 < (perda_carga_fin 50 100 100 0.15 5 1.004e-6).principal := by
    show 0 < fator_atrito_calc 50 100 0.15 1.004e-6 * ((100 : ℝ) / (100 / 1000)) *
      (velocidade_calc 50 100 ^ 2 / (2 * 9.81))
    have h1 : (0 : ℝ) < (100 : ℝ) / (100 / 1000) := by norm_num
    exact mul_pos (mul_pos hfp.2.2 h1) (div_pos hv2 (by norm_num))
  have hlocal : 0 < (perda_carga_fin 50 100 100 0.15 5 1.004e-6).localizada := by
    show 0 < (5 : ℝ) * (velocidade_calc 50 100 ^ 2 / (2 * 9.81))
    exact mul_pos (by norm_num) (div_pos hv2 (by norm_num))
  have hH : 0 < (perda_carga_fin 50 100 100 0.15 5 1.004e-6).principal +
      (perda_carga_fin 50 100 100 0.15 5 1.004e-6).localizada := add_pos hprincipal hlocal
  have hkW : 0 < (energia_core 50
      ((perda_carga_fin 50 100 100 0.15 5 1.004e-6).principal +
        (perda_carga_fin 50 100 100 0.15 5 1.004e-6).localizada)
      998.2 0.7 0.9 8 0.75).potencia_eletrica_kW := by
    simp only [energia_core, if_pos (show (0 : ℝ) < 0.7 by norm_num),
      if_pos (show (0 : ℝ) < 0.9 by norm_num)]
    positivity
  refine ⟨by simp [FLUIDOS], ?_, hre, hprincipal, hlocal, ?_, ?_, hkW, ?_⟩
  · rw [abs_lt]
    constructor <;> [linarith [hvb.1]; linarith [hvb.2]]
  · simp [calcular_perda_carga, FLUIDOS]
  · simp [calcular_analise_energetica, FLUIDOS]
  · have hca : (energia_core 50
        ((perda_carga_fin 50 100 100 0.15 5 1.004e-6).principal +
          (perda_carga_fin 50 100 100 0.15 5 1.004e-6).localizada)
        998.2 0.7 0.9 8 0.75).custo_anual =
        ((energia_core 50
          ((perda_carga_fin 50 100 100 0.15 5 1.004e-6).principal +
            (perda_carga_fin 50 100 100 0.15 5 1.004e-6).localizada)
          998.2 0.7 0.9 8 0.75).potencia_eletrica_kW * 8 * 365) * 0.75 := by
      simp only [energia_core]
    rw [hca]
    positivity

/-- C1: with positive diameter, (non-negative roughness) and positive
viscosity, the friction factor is selected by Reynolds regime with no gap or
overlap at the 4000 boundary — Swamee-Jain for `Re > 4000`, `64/Re` for
`0 < Re ≤ 4000`, `0` for `Re = 0` — and the major/minor losses follow the
Darcy-Weisbach formulas. -/
theorem perda_carga_regimes_spec
    (vazao_m3h diametro_mm comprimento_m rugosidade_mm k_total : ℝ) (fluido : String) (fl : Fluido)
    (hd : 0 < diametro_mm) (hrug : 0 ≤ rugosidade_mm) (hlook : FLUIDOS.lookup fluido = some fl)
    (hnu : 0 < fl.nu) :
    calcular_perda_carga vazao_m3h diametro_mm comprimento_m rugosidade_mm k_total fluido =
      some (perda_carga_fin vazao_m3h diametro_mm comprimento_m rugosidade_mm k_total fl.nu).toE ∧
    (4000 < reynolds_calc vazao_m3h diametro_mm fl.nu →
      fator_atrito_calc vazao_m3h diametro_mm rugosidade_mm fl.nu =
        0.25 / (Real.logb 10 ((rugosidade_mm / 1000) / (3.7 * (diametro_mm / 1000)) +
          5.74 / (reynolds_calc vazao_m3h diametro_mm fl.nu) ^ (0.9 : ℝ))) ^ 2) ∧
    (0 < reynolds_calc vazao_m3h diametro_mm fl.nu →
      reynolds_calc vazao_m3h diametro_mm fl.nu ≤ 4000 →
      fator_atrito_calc vazao_m3h diametro_mm rugosidade_mm fl.nu =
        64 / reynolds_calc vazao_m3h diametro_mm fl.nu) ∧
    (reynolds_calc vazao_m3h diametro_mm fl.nu = 0 →
      fator_atrito_calc vazao_m3h diametro_mm rugosidade_mm fl.nu = 0) ∧
    (perda_carga_fin vazao_m3h diametro_mm comprimento_m rugosidade_mm k_total fl.nu).principal =
      fator_atrito_calc vazao_m3h diametro_mm rugosidade_mm fl.nu *
        (comprimento_m / (diametro_mm / 1000)) *
        (velocidade_calc vazao_m3h diametro_mm ^ 2 / (2 * 9.81)) ∧
    (perda_carga_fin vazao_m3h diametro_mm comprimento_m rugosidade_mm k_total fl.nu).localizada =
      k_total * (velocidade_calc vazao_m3h diametro_mm ^ 2 / (2 * 9.81)) := by
  refine ⟨?_, ?_, ?_, ?_, rfl, rfl⟩
  · simp [calcular_perda_carga, hlook, hd.not_le]
  · intro hturb
    have hre : (0 : ℝ) < reynolds_calc vazao_m3h diametro_mm fl.nu := by linarith
    have hpow : (0 : ℝ) < reynolds_calc vazao_m3h diametro_mm fl.nu ^ (0.9 : ℝ) :=
      Real.rpow_pos_of_pos hre _
    have htermo : 0 < termo_log_calc vazao_m3h diametro_mm rugosidade_mm fl.nu := by
      unfold termo_log_calc
      have h1 : (0 : ℝ) ≤ (rugosidade_mm / 1000) / (3.7 * (diametro_mm / 1000)) := by positivity
      have h2 : (0 : ℝ) < 5.74 / reynolds_calc vazao_m3h diametro_mm fl.nu ^ (0.9 : ℝ) :=
        div_pos (by norm_num) hpow
      linarith
    unfold fator_atrito_calc
    rw [if_pos hturb, if_pos htermo]
    simp only [termo_log_calc]
  · intro hpos hle
    unfold fator_atrito_calc
    rw [if_neg (not_lt.mpr hle), if_pos hpos]
  · intro h0
    unfold fator_atrito_calc
    rw [h0]
    norm_num

/-- Witness for C1 on water at flow 50 m³/h, diameter 100 mm. -/
theorem perda_carga_regimes_witness :
    ((0 : ℝ) < 100 ∧ (0 : ℝ) ≤ 0.15 ∧
      FLUIDOS.lookup "Água a 20°C" = some ⟨998.2, 1.004e-6⟩ ∧
      (0 : ℝ) < (Fluido.mk 998.2 1.004e-6).nu) ∧
    (calcular_perda_carga 50 100 100 0.15 5 "Água a 20°C" =
      some (perda_carga_fin 50 100 100 0.15 5 (Fluido.mk 998.2 1.004e-6).nu).toE ∧
    (4000 < reynolds_calc 50 100 (Fluido.mk 998.2 1.004e-6).nu →
      fator_atrito_calc 50 100 0.15 (Fluido.mk 998.2 1.004e-6).nu =
        0.25 / (Real.logb 10 ((0.15 / 1000) / (3.7 * (100 / 1000)) +
          5.74 / (reynolds_calc 50 100 (Fluido.mk 998.2 1.004e-6).nu) ^ (0.9 : ℝ))) ^ 2) ∧
    (0 < reynolds_calc 50 100 (Fluido.mk 998.2 1.004e-6).nu →
      reynolds_calc 50 100 (Fluido.mk 998.2 1.004e-6).nu ≤ 4000 →
      fator_atrito_calc 50 100 0.15 (Fluido.mk 998.2 1.004e-6).nu =
        64 / reynolds_calc 50 100 (Fluido.mk 998.2 1.004e-6).nu) ∧
    (reynolds_calc 50 100 (Fluido.mk 998.2 1.004e-6).nu = 0 →
      fator_atrito_calc 50 100 0.15 (Fluido.mk 998.2 1.004e-6).nu = 0) ∧
    (perda_carga_fin 50 100 100 0.15 5 (Fluido.mk 998.2 1.004e-6).nu).principal =
      fator_atrito_calc 50 100 0.15 (Fluido.mk 998.2 1.004e-6).nu * (100 / (100 / 1000)) *
        (velocidade_calc 50 100 ^ 2 / (2 * 9.81)) ∧
    (perda_carga_fin 50 100 100 0.15 5 (Fluido.mk 998.2 1.004e-6).nu).localizada =
      5 * (velocidade_calc 50 100 ^ 2 / (2 * 9.81))) :=
  ⟨⟨by norm_num, by norm_num, by simp [FLUIDOS], by norm_num [Fluido.nu]⟩,
    perda_carga_regimes_spec 50 100 100 0.15 5 "Água a 20°C" ⟨998.2, 1.004e-6⟩
      (by norm_num) (by norm_num) (by simp [FLUIDOS]) (by norm_num [Fluido.nu])⟩

/-- C7: the advisory generator emits the velocity warnings mutually
exclusively (and neither for velocities in [0.5, 3]), always ends with the
preventive-maintenance advisory, emits each efficiency/cost advisory exactly
when its threshold holds, and the whole output is ordered as a sublist of the
fixed master sequence. -/
theorem sugestoes_spec (eficiencia_bomba eficiencia_motor custo_anual velocidade : ℝ) :
    (∀ u w : ℝ,
      ¬ (Sugestao.alerta_velocidade_alta u ∈
            gerar_sugestoes eficiencia_bomba eficiencia_motor custo_anual velocidade ∧
          Sugestao.atencao_velocidade_baixa w ∈
            gerar_sugestoes eficiencia_bomba eficiencia_motor custo_anual velocidade)) ∧
    (0.5 ≤ velocidade → velocidade ≤ 3.0 → ∀ u : ℝ,
      Sugestao.alerta_velocidade_alta u ∉
          gerar_sugestoes eficiencia_bomba eficiencia_motor custo_anual velocidade ∧
        Sugestao.atencao_velocidade_baixa u ∉
          gerar_sugestoes eficiencia_bomba eficiencia_motor custo_anual velocidade) ∧
    (gerar_sugestoes eficiencia_bomba eficiencia_motor custo_anual velocidade).getLast? =
      some Sugestao.manutencao_preventiva ∧
    (Sugestao.bomba_ineficiente ∈
        gerar_sugestoes eficiencia_bomba eficiencia_motor custo_anual velocidade ↔
      eficiencia_bomba < 0.6) ∧
    (Sugestao.motor_ineficiente ∈
        gerar_sugestoes eficiencia_bomba eficiencia_motor custo_anual velocidade ↔
      eficiencia_motor < 0.85) ∧
    (Sugestao.inversor_frequencia ∈
        gerar_sugestoes eficiencia_bomba eficiencia_motor custo_anual velocidade ↔
      5000 < custo_anual) ∧
    (gerar_sugestoes eficiencia_bomba eficiencia_motor custo_anual velocidade).Sublist
      [Sugestao.alerta_velocidade_alta velocidade, Sugestao.atencao_velocidade_baixa velocidade,
        Sugestao.bomba_ineficiente, Sugestao.motor_ineficiente, Sugestao.inversor_frequencia,
        Sugestao.manutencao_preventiva] := by
  unfold gerar_sugestoes
  split_ifs <;> simp_all <;>
    first
    | linarith
    | (repeat
        first
        | exact List.Sublist.refl _
        | exact List.nil_sublist _
        | apply List.Sublist.cons₂
        | apply List.Sublist.cons)

/-- Witness for C7 at a slow, inefficient, costly configuration. -/
theorem sugestoes_witness :
    (∀ u w : ℝ,
      ¬ (Sugestao.alerta_velocidade_alta u ∈ gerar_sugestoes 0.5 0.8 6000 0.3 ∧
          Sugestao.atencao_velocidade_baixa w ∈ gerar_sugestoes 0.5 0.8 6000 0.3)) ∧
    ((0.5 : ℝ) ≤ 0.3 → (0.3 : ℝ) ≤ 3.0 → ∀ u : ℝ,
      Sugestao.alerta_velocidade_alta u ∉ gerar_sugestoes 0.5 0.8 6000 0.3 ∧
        Sugestao.atencao_velocidade_baixa u ∉ gerar_sugestoes 0.5 0.8 6000 0.3) ∧
    (gerar_sugestoes 0.5 0.8 6000 0.3).getLast? = some Sugestao.manutencao_preventiva ∧
    (Sugestao.bomba_ineficiente ∈ gerar_sugestoes 0.5 0.8 6000 0.3 ↔ (0.5 : ℝ) < 0.6) ∧
    (Sugestao.motor_ineficiente ∈ gerar_sugestoes 0.5 0.8 6000 0.3 ↔ (0.8 : ℝ) < 0.85) ∧
    (Sugestao.inversor_frequencia ∈ gerar_sugestoes 0.5 0.8 6000 0.3 ↔ (5000 : ℝ) < 6000) ∧
    (gerar_sugestoes 0.5 0.8 6000 0.3).Sublist
      [Sugestao.alerta_velocidade_alta 0.3, Sugestao.atencao_velocidade_baixa 0.3,
        Sugestao.bomba_ineficiente, Sugestao.motor_ineficiente, Sugestao.inversor_frequencia,
        Sugestao.manutencao_preventiva] :=
  sugestoes_spec 0.5 0.8 6000 0.3

/-- Witness for C6 on water with zero pump efficiency. -/
theorem analise_energetica_eficiencia_witness :
    FLUIDOS.lookup "Água a 20°C" = some ⟨998.2, 1.004e-6⟩ ∧
    ((((0 : ℝ) ≤ 0 ∨ (0.9 : ℝ) ≤ 0) →
      calcular_analise_energetica 50 30 0 0.9 8 0.75 "Água a 20°C" = some ⟨0, 0, 0, 0⟩) ∧
    ((0 : ℝ) < 0 → (0 : ℝ) < 0.9 →
      ∀ e : Energia,
        calcular_analise_energetica 50 30 0 0.9 8 0.75 "Água a 20°C" = some e →
          e.potencia_eletrica_kW = (((50 / 3600) * (Fluido.mk 998.2 1.004e-6).rho * 9.81 * 30) / 0 / 0.9) / 1000)) :=
  ⟨by simp [FLUIDOS],
    analise_energetica_eficiencia_spec 50 30 0 0.9 8 0.75 "Água a 20°C" ⟨998.2, 1.004e-6⟩
      (by simp [FLUIDOS])⟩

/-- C4: the guard `termo_log > 0` does not make the turbulent friction factor
safe.  At flow 50 m³/h, diameter 100 mm, water, and the (positive, physically
meaningful) roughness `370·(1 − 5.74/Re^0.9)` mm, the turbulent branch is
taken, the guard passes with `termo_log = 1`, and `log10(termo_log) = 0`:
the source expression `0.25 / (math.log10(termo_log))**2` is a division by
zero (a Python `ZeroDivisionError`), contradicting the no-fault claim. -/
theorem fator_atrito_divisao_por_zero_bug :
    (0 : ℝ) < 370 * (1 - 5.74 / reynolds_calc 50 100 1.004e-6 ^ (0.9 : ℝ)) ∧
    4000 < reynolds_calc 50 100 1.004e-6 ∧
    termo_log_calc 50 100
        (370 * (1 - 5.74 / reynolds_calc 50 100 1.004e-6 ^ (0.9 : ℝ))) 1.004e-6 = 1 ∧
    (0 : ℝ) < termo_log_calc 50 100
        (370 * (1 - 5.74 / reynolds_calc 50 100 1.004e-6 ^ (0.9 : ℝ))) 1.004e-6 ∧
    Real.logb 10 (termo_log_calc 50 100
        (370 * (1 - 5.74 / reynolds_calc 50 100 1.004e-6 ^ (0.9 : ℝ))) 1.004e-6) = 0 := by
  have hre := reynolds_50_100_turbulento
  have hpow : (250 : ℝ) ≤ reynolds_calc 50 100 1.004e-6 ^ (0.9 : ℝ) :=
    rpow_09_lower _ (le_of_lt hre)
  have hx_ub : 5.74 / reynolds_calc 50 100 1.004e-6 ^ (0.9 : ℝ) ≤ 5.74 / 250 :=
    div_le_div_of_nonneg_left (by norm_num) (by norm_num) hpow
  have hx_pos : 0 < 5.74 / reynolds_calc 50 100 1.004e-6 ^ (0.9 : ℝ) :=
    div_pos (by norm_num) (by linarith)
  have htermo : termo_log_calc 50 100
      (370 * (1 - 5.74 / reynolds_calc 50 100 1.004e-6 ^ (0.9 : ℝ))) 1.004e-6 = 1 := by
    unfold termo_log_calc
    field_simp
    ring
  refine ⟨by nlinarith, hre, htermo, by rw [htermo]; norm_num, by rw [htermo]; simp⟩

/-- Velocity at flow 50 m³/h through a 200 mm pipe. -/
theorem velocidade_50_200 : velocidade_calc 50 200 = 50 / (36 * Real.pi) := by
  unfold velocidade_calc
  have hπ : Real.pi ≠ 0 := Real.pi_ne_zero
  field_simp
  ring

/-- Velocity bounds for the 200 mm pipe. -/
theorem velocidade_50_200_bounds :
    (0.44 : ℝ) < velocidade_calc 50 200 ∧ velocidade_calc 50 200 < 0.45 := by
  have hπ1 : (3.141592 : ℝ) < Real.pi := Real.pi_gt_d6
  have hπ2 : Real.pi < 3.15 := Real.pi_lt_d2
  constructor
  · rw [velocidade_50_200, lt_div_iff₀ (by positivity)]
    nlinarith
  · rw [velocidade_50_200, div_lt_iff₀ (by positivity)]
    nlinarith

/-- In the laminar regime the total head loss collapses to `A / d_m⁴` for a
diameter-independent non-negative `A`. -/
theorem perda_laminar_eq (vazao_m3h comprimento_m rugosidade_mm k_total nu d : ℝ)
    (hvazao : 0 < vazao_m3h) (hnu : 0 < nu) (hd : 0 < d)
    (hRe : reynolds_calc vazao_m3h d nu ≤ 4000) :
    (perda_carga_fin vazao_m3h d comprimento_m rugosidade_mm k_total nu).principal +
      (perda_carga_fin vazao_m3h d comprimento_m rugosidade_mm k_total nu).localizada =
    (256 * nu * comprimento_m * (vazao_m3h / 3600) / ((2 * 9.81) * Real.pi) +
      16 * k_total * (vazao_m3h / 3600) ^ 2 / ((2 * 9.81) * Real.pi ^ 2)) / (d / 1000) ^ 4 := by
  have hπ := Real.pi_pos
  have hv : 0 < velocidade_calc vazao_m3h d := by
    unfold velocidade_calc
    positivity
  have hRe_eq : reynolds_calc vazao_m3h d nu = velocidade_calc vazao_m3h d * (d / 1000) / nu := by
    unfold reynolds_calc
    rw [if_pos hnu]
  have hRe_pos : 0 < reynolds_calc vazao_m3h d nu := by
    rw [hRe_eq]
    positivity
  have hfator : fator_atrito_calc vazao_m3h d rugosidade_mm nu =
      64 / reynolds_calc vazao_m3h d nu := by
    unfold fator_atrito_calc
    rw [if_neg (not_lt.mpr hRe), if_pos hRe_pos]
  simp only [perda_carga_fin]
  rw [hfator, hRe_eq]
  unfold velocidade_calc
  have h1000 : (d / 1000) ≠ 0 := by positivity
  have hπne : Real.pi ≠ 0 := Real.pi_ne_zero
  have hnune : nu ≠ 0 := ne_of_gt hnu
  have hvne : vazao_m3h ≠ 0 := ne_of_gt hvazao
  field_simp
  ring

/-- C8 (amended): along the sweep pipeline, for physically valid inputs with
both diameters in the laminar regime (`Re ≤ 4000`), the annual energy cost is
monotonically non-increasing in the pipe diameter.  (In the turbulent regime
the Swamee-Jain singularity at log-argument 1 breaks monotonicity: see the
counterexample.) -/
theorem custo_anual_laminar_monotono_spec
    (vazao_m3h comprimento_m rugosidade_mm k_total h_geometrica rho nu
      eficiencia_bomba eficiencia_motor horas_dia custo_kwh d1 d2 : ℝ)
    (hvazao : 0 < vazao_m3h) (hcomp : 0 ≤ comprimento_m) (hrho : 0 ≤ rho) (hnu : 0 < nu)
    (hk : 0 ≤ k_total) (hef_b : 0 < eficiencia_bomba) (hef_m : 0 < eficiencia_motor)
    (hhoras : 0 ≤ horas_dia) (htarifa : 0 ≤ custo_kwh)
    (hd1 : 0 < d1) (hd12 : d1 ≤ d2)
    (hRe1 : reynolds_calc vazao_m3h d1 nu ≤ 4000)
    (hRe2 : reynolds_calc vazao_m3h d2 nu ≤ 4000) :
    custo_anual_pipeline vazao_m3h d2 comprimento_m rugosidade_mm k_total h_geometrica rho nu
        eficiencia_bomba eficiencia_motor horas_dia custo_kwh ≤
      custo_anual_pipeline vazao_m3h d1 comprimento_m rugosidade_mm k_total h_geometrica rho nu
        eficiencia_bomba eficiencia_motor horas_dia custo_kwh := by
  have hd2 : 0 < d2 := lt_of_lt_of_le hd1 hd12
  have h1 := perda_laminar_eq vazao_m3h comprimento_m rugosidade_mm k_total nu d1 hvazao hnu
    hd1 hRe1
  have h2 := perda_laminar_eq vazao_m3h comprimento_m rugosidade_mm k_total nu d2 hvazao hnu
    hd2 hRe2
  have hπ := Real.pi_pos
  have hA : 0 ≤ 256 * nu * comprimento_m * (vazao_m3h / 3600) / ((2 * 9.81) * Real.pi) +
      16 * k_total * (vazao_m3h / 3600) ^ 2 / ((2 * 9.81) * Real.pi ^ 2) := by
    have t1 : (0 : ℝ) ≤ 256 * nu * comprimento_m * (vazao_m3h / 3600) :=
      mul_nonneg (mul_nonneg (mul_nonneg (by norm_num) hnu.le) hcomp)
        (div_nonneg hvazao.le (by norm_num))
    have t2 : (0 : ℝ) ≤ 16 * k_total * (vazao_m3h / 3600) ^ 2 :=
      mul_nonneg (mul_nonneg (by norm_num) hk) (sq_nonneg _)
    have d1pos : (0 : ℝ) < (2 * 9.81) * Real.pi := by positivity
    have d2pos : (0 : ℝ) < (2 * 9.81) * Real.pi ^ 2 := by positivity
    exact add_nonneg (div_nonneg t1 d1pos.le) (div_nonneg t2 d2pos.le)
  have hpow_le : (d1 / 1000) ^ 4 ≤ (d2 / 1000) ^ 4 := by
    have : d1 / 1000 ≤ d2 / 1000 := by linarith
    exact pow_le_pow_left₀ (by positivity) this 4
  have hpow_pos : (0 : ℝ) < (d1 / 1000) ^ 4 := by positivity
  have hloss :
      (perda_carga_fin vazao_m3h d2 comprimento_m rugosidade_mm k_total nu).principal +
        (perda_carga_fin vazao_m3h d2 comprimento_m rugosidade_mm k_total nu).localizada ≤
      (perda_carga_fin vazao_m3h d1 comprimento_m rugosidade_mm k_total nu).principal +
        (perda_carga_fin vazao_m3h d1 comprimento_m rugosidade_mm k_total nu).localizada := by
    rw [h1, h2]
    exact div_le_div_of_nonneg_left hA hpow_pos hpow_le
  unfold custo_anual_pipeline
  simp only [energia_core, if_pos hef_b, if_pos hef_m]
  have hcoef : (0 : ℝ) ≤ vazao_m3h / 3600 * rho * 9.81 := by positivity
  set H1 := h_geometrica +
      (perda_carga_fin vazao_m3h d1 comprimento_m rugosidade_mm k_total nu).principal +
      (perda_carga_fin vazao_m3h d1 comprimento_m rugosidade_mm k_total nu).localizada with hH1
  set H2 := h_geometrica +
      (perda_carga_fin vazao_m3h d2 comprimento_m rugosidade_mm k_total nu).principal +
      (perda_carga_fin vazao_m3h d2 comprimento_m rugosidade_mm k_total nu).localizada with hH2
  have hH : H2 ≤ H1 := by
    rw [hH1, hH2]
    linarith
  gcongr

/-- Glycerin flow through the 100 mm pipe is laminar. -/
theorem reynolds_glicerina_100 : reynolds_calc 50 100 1.49e-3 ≤ 4000 := by
  have hRe_eq : reynolds_calc 50 100 1.49e-3 =
      velocidade_calc 50 100 * (100 / 1000) / 1.49e-3 := by
    unfold reynolds_calc
    rw [if_pos (by norm_num)]
  rw [hRe_eq, div_le_iff₀ (by norm_num)]
  nlinarith [velocidade_50_100_bounds.2]

/-- Glycerin flow through the 200 mm pipe is laminar. -/
theorem reynolds_glicerina_200 : reynolds_calc 50 200 1.49e-3 ≤ 4000 := by
  have hRe_eq : reynolds_calc 50 200 1.49e-3 =
      velocidade_calc 50 200 * (200 / 1000) / 1.49e-3 := by
    unfold reynolds_calc
    rw [if_pos (by norm_num)]
  rw [hRe_eq, div_le_iff₀ (by norm_num)]
  nlinarith [velocidade_50_200_bounds.2]

/-- Witness for the amended C8 on glycerin (laminar at both 100 mm and
200 mm). -/
theorem custo_anual_laminar_monotono_witness :
    ((0 : ℝ) < 50 ∧ (0 : ℝ) ≤ 100 ∧ (0 : ℝ) ≤ 1261 ∧ (0 : ℝ) < 1.49e-3 ∧ (0 : ℝ) ≤ 5 ∧
      (0 : ℝ) < 0.7 ∧ (0 : ℝ) < 0.9 ∧ (0 : ℝ) ≤ 8 ∧ (0 : ℝ) ≤ 0.75 ∧
      (0 : ℝ) < 100 ∧ (100 : ℝ) ≤ 200 ∧
      reynolds_calc 50 100 1.49e-3 ≤ 4000 ∧ reynolds_calc 50 200 1.49e-3 ≤ 4000) ∧
    custo_anual_pipeline 50 200 100 0.15 5 15 1261 1.49e-3 0.7 0.9 8 0.75 ≤
      custo_anual_pipeline 50 100 100 0.15 5 15 1261 1.49e-3 0.7 0.9 8 0.75 :=
  ⟨⟨by norm_num, by norm_num, by norm_num, by norm_num, by norm_num, by norm_num, by norm_num,
      by norm_num, by norm_num, by norm_num, by norm_num,
      reynolds_glicerina_100, reynolds_glicerina_200⟩,
    custo_anual_laminar_monotono_spec 50 100 0.15 5 15 1261 1.49e-3 0.7 0.9 8 0.75 100 200
      (by norm_num) (by norm_num) (by norm_num) (by norm_num) (by norm_num) (by norm_num)
      (by norm_num) (by norm_num) (by norm_num) (by norm_num) (by norm_num)
      reynolds_glicerina_100 reynolds_glicerina_200⟩

/-- Water flow through the 200 mm pipe is still turbulent. -/
theorem reynolds_50_200_turbulento : (4000 : ℝ) < reynolds_calc 50 200 1.004e-6 := by
  have hre_eq : reynolds_calc 50 200 1.004e-6 =
      velocidade_calc 50 200 * (200 / 1000) / 1.004e-6 := by
    unfold reynolds_calc
    rw [if_pos (by norm_num)]
  rw [hre_eq, lt_div_iff₀ (by norm_num)]
  nlinarith [velocidade_50_200_bounds.1]

/-- The base-10 logarithm of `1 − 10⁻⁹` is negative but no smaller than
`−2·10⁻⁹`. -/
theorem logb_um_menos_eps_bounds :
    Real.logb 10 (1 - 1e-9) < 0 ∧ -2e-9 ≤ Real.logb 10 (1 - 1e-9) := by
  have ht_pos : (0 : ℝ) < 1 - 1e-9 := by norm_num
  have ht_lt : (1 : ℝ) - 1e-9 < 1 := by norm_num
  have hlog_neg : Real.log (1 - 1e-9) < 0 := Real.log_neg ht_pos ht_lt
  have hlog_lb : (-2e-9 : ℝ) ≤ Real.log (1 - 1e-9) := by
    have hinv : ((1 : ℝ) - 1e-9)⁻¹ ≤ 1 + 2e-9 := by
      rw [inv_eq_one_div, div_le_iff₀ ht_pos]
      norm_num
    have h1 : Real.log ((1 - 1e-9) : ℝ)⁻¹ ≤ ((1 - 1e-9) : ℝ)⁻¹ - 1 :=
      Real.log_le_sub_one_of_pos (by positivity)
    rw [Real.log_inv] at h1
    linarith
  have hlog10 : (1 : ℝ) < Real.log 10 := by
    have h1 : Real.log (Real.exp 1) < Real.log 10 :=
      Real.log_lt_log (Real.exp_pos 1) (by nlinarith [Real.exp_one_lt_d9])
    rwa [Real.log_exp] at h1
  constructor
  · exact Real.logb_neg (by norm_num) ht_pos ht_lt
  · unfold Real.logb
    rw [le_div_iff₀ (by linarith)]
    nlinarith

/-- The fourth root of 10 is below 1.95. -/
theorem rpow_quarta_10 : (10 : ℝ) ^ ((4 : ℝ)⁻¹) ≤ 1.95 := by
  have hquart : ((10 : ℝ) ^ ((4 : ℝ)⁻¹)) ^ (4 : ℕ) = 10 :=
    Real.rpow_inv_natCast_pow (by norm_num) (by norm_num)
  by_contra hgt
  push_neg at hgt
  have hcube : (1.95 : ℝ) ^ (4 : ℕ) < ((10 : ℝ) ^ ((4 : ℝ)⁻¹)) ^ (4 : ℕ) :=
    pow_lt_pow_left₀ hgt (by norm_num) (by norm_num)
  rw [hquart] at hcube
  norm_num at hcube

/-- Bound on the velocity head at 100 mm. -/
theorem velocidade_50_100_sq_bound : velocidade_calc 50 100 ^ 2 / (2 * 9.81) ≤ 0.162 := by
  have hv := velocidade_50_100_bounds
  have hsq : velocidade_calc 50 100 ^ 2 < (1.78 : ℝ) ^ 2 :=
    pow_lt_pow_left₀ hv.2 (le_trans (by norm_num) hv.1.le) (by norm_num)
  have h2 : ((1.78 : ℝ)) ^ 2 = 3.1684 := by norm_num
  rw [h2] at hsq
  rw [show (2 : ℝ) * 9.81 = 19.62 by norm_num, div_le_iff₀ (by norm_num : (0 : ℝ) < 19.62)]
  linarith

/-- Bound on the velocity head at 200 mm. -/
theorem velocidade_50_200_sq_bound : (0.0098 : ℝ) ≤ velocidade_calc 50 200 ^ 2 / (2 * 9.81) := by
  have hv := velocidade_50_200_bounds
  have hsq : ((0.44 : ℝ)) ^ 2 < velocidade_calc 50 200 ^ 2 :=
    pow_lt_pow_left₀ hv.1 (by norm_num) (by norm_num)
  have h2 : ((0.44 : ℝ)) ^ 2 = 0.1936 := by norm_num
  rw [h2] at hsq
  rw [show (2 : ℝ) * 9.81 = 19.62 by norm_num, le_div_iff₀ (by norm_num : (0 : ℝ) < 19.62)]
  linarith

/-- Arithmetic bound used for the 100 mm principal loss. -/
theorem aux_prod_ub (f q : ℝ) (hf : f ≤ 4) (hq : q ≤ 0.162) (hq0 : 0 ≤ q) :
    f * 1000 * q ≤ 650 := by
  nlinarith

/-- Arithmetic bound used for the 200 mm principal loss. -/
theorem aux_prod_lb (f q : ℝ) (hf : 2.5e16 ≤ f) (hq : 0.0098 ≤ q) :
    (1e17 : ℝ) ≤ f * 500 * q := by
  nlinarith

/-- Arithmetic comparison of the two pipeline costs. -/
theorem aux_cost_compare (P1 P2 : ℝ) (h1 : P1 ≤ 650) (h2 : (1e17 : ℝ) ≤ P2) :
    50 / 3600 * 998.2 * 9.81 * (1 + P1 + 0) / 0.7 / 0.9 / 1000 * 8 * 365 * 0.75 <
      50 / 3600 * 998.2 * 9.81 * (1 + P2 + 0) / 0.7 / 0.9 / 1000 * 8 * 365 * 0.75 := by
  have hlin : (0 : ℝ) < 50 / 3600 * 998.2 * 9.81 / 0.7 / 0.9 / 1000 * 8 * 365 * 0.75 := by
    norm_num
  have hrw : ∀ P : ℝ,
      50 / 3600 * 998.2 * 9.81 * (1 + P + 0) / 0.7 / 0.9 / 1000 * 8 * 365 * 0.75 =
        (1 + P + 0) * (50 / 3600 * 998.2 * 9.81 / 0.7 / 0.9 / 1000 * 8 * 365 * 0.75) := by
    intro P
    ring
  rw [hrw P1, hrw P2]
  exact mul_lt_mul_of_pos_right (by linarith) hlin

/-- C8 counterexample: with water, flow 50 m³/h, length 100 m, K = 0, the
roughness `740·(1 − 5.74/Re₂^0.9 − 10⁻⁹)` mm (positive, hence physically
valid) makes the Swamee-Jain log argument at diameter 200 mm equal to
`1 − 10⁻⁹`, so the friction factor explodes there: the annual cost at the
larger 200 mm diameter strictly exceeds the cost at 100 mm, refuting
monotonicity of the sweep pipeline in the diameter. -/
theorem custo_anual_nao_monotono_cex :
    (0 : ℝ) < 740 * (1 - 5.74 / reynolds_calc 50 200 1.004e-6 ^ (0.9 : ℝ) - 1e-9) ∧
    (100 : ℝ) < 200 ∧
    custo_anual_pipeline 50 100 100
        (740 * (1 - 5.74 / reynolds_calc 50 200 1.004e-6 ^ (0.9 : ℝ) - 1e-9)) 0 1 998.2
        1.004e-6 0.7 0.9 8 0.75 <
      custo_anual_pipeline 50 200 100
        (740 * (1 - 5.74 / reynolds_calc 50 200 1.004e-6 ^ (0.9 : ℝ) - 1e-9)) 0 1 998.2
        1.004e-6 0.7 0.9 8 0.75 := by
  have hre2 := reynolds_50_200_turbulento
  have hre1 := reynolds_50_100_turbulento
  have hpow2 : (250 : ℝ) ≤ reynolds_calc 50 200 1.004e-6 ^ (0.9 : ℝ) :=
    rpow_09_lower _ (le_of_lt hre2)
  have hpow2_pos : (0 : ℝ) < reynolds_calc 50 200 1.004e-6 ^ (0.9 : ℝ) := by linarith
  have hpow1 : (250 : ℝ) ≤ reynolds_calc 50 100 1.004e-6 ^ (0.9 : ℝ) :=
    rpow_09_lower _ (le_of_lt hre1)
  have hpow1_pos : (0 : ℝ) < reynolds_calc 50 100 1.004e-6 ^ (0.9 : ℝ) := by linarith
  set x2 : ℝ := 5.74 / reynolds_calc 50 200 1.004e-6 ^ (0.9 : ℝ) with hx2_def
  set x1 : ℝ := 5.74 / reynolds_calc 50 100 1.004e-6 ^ (0.9 : ℝ) with hx1_def
  have hx2_pos : 0 < x2 := div_pos (by norm_num) hpow2_pos
  have hx2_ub : x2 ≤ 0.023 := by
    have h := div_le_div_of_nonneg_left (show (0 : ℝ) ≤ 5.74 by norm_num)
      (show (0 : ℝ) < 250 by norm_num) hpow2
    rw [hx2_def]
    linarith
  have hx1_pos : 0 < x1 := div_pos (by norm_num) hpow1_pos
  set rug : ℝ := 740 * (1 - x2 - 1e-9) with hrug_def
  have hrug_pos : 0 < rug := by
    rw [hrug_def]
    linarith
  refine ⟨hrug_pos, by norm_num, ?_⟩
  -- log argument at 200 mm is exactly 1 − 10⁻⁹
  have htermo2 : termo_log_calc 50 200 rug 1.004e-6 = 1 - 1e-9 := by
    unfold termo_log_calc
    rw [← hx2_def, hrug_def]
    ring
  have htermo2_pos : (0 : ℝ) < termo_log_calc 50 200 rug 1.004e-6 := by
    rw [htermo2]
    norm_num
  -- friction factor at 200 mm is at least 2.5·10¹⁶
  have hlogb2 := logb_um_menos_eps_bounds
  have hlogb2_ne : Real.logb 10 (1 - 1e-9) ≠ 0 := ne_of_lt hlogb2.1
  have hlogb2_sq_pos : (0 : ℝ) < Real.logb 10 (1 - 1e-9) ^ 2 := by positivity
  have hlogb2_sq_ub : Real.logb 10 (1 - 1e-9) ^ 2 ≤ 1e-17 := by
    have h1 : Real.logb 10 (1 - 1e-9) ^ 2 ≤ (2e-9 : ℝ) ^ 2 :=
      sq_le_sq' (by linarith [hlogb2.2]) (by linarith [hlogb2.1])
    linarith [h1, show ((2e-9 : ℝ)) ^ 2 ≤ 1e-17 by norm_num]
  have hfator2_eq : fator_atrito_calc 50 200 rug 1.004e-6 =
      0.25 / Real.logb 10 (1 - 1e-9) ^ 2 := by
    unfold fator_atrito_calc
    rw [htermo2, if_pos hre2, if_pos (show (0 : ℝ) < 1 - 1e-9 by norm_num)]
  have hfator2_lb : (2.5e16 : ℝ) ≤ fator_atrito_calc 50 200 rug 1.004e-6 := by
    rw [hfator2_eq]
    have h := div_le_div_of_nonneg_left (show (0 : ℝ) ≤ 0.25 by norm_num) hlogb2_sq_pos
      hlogb2_sq_ub
    linarith
  -- log argument at 100 mm is comfortably above 1.95
  have htermo1_eq : termo_log_calc 50 100 rug 1.004e-6 = rug / 370 + x1 := by
    unfold termo_log_calc
    rw [← hx1_def]
    ring_nf
  have htermo1_lb : (1.95 : ℝ) ≤ termo_log_calc 50 100 rug 1.004e-6 := by
    rw [htermo1_eq, hrug_def]
    linarith
  have htermo1_pos : (0 : ℝ) < termo_log_calc 50 100 rug 1.004e-6 := by linarith
  have hlogb1_lb : (4 : ℝ)⁻¹ ≤ Real.logb 10 (termo_log_calc 50 100 rug 1.004e-6) := by
    rw [Real.le_logb_iff_rpow_le (by norm_num) htermo1_pos]
    calc (10 : ℝ) ^ ((4 : ℝ)⁻¹) ≤ 1.95 := rpow_quarta_10
      _ ≤ termo_log_calc 50 100 rug 1.004e-6 := htermo1_lb
  have hfator1_eq : fator_atrito_calc 50 100 rug 1.004e-6 =
      0.25 / Real.logb 10 (termo_log_calc 50 100 rug 1.004e-6) ^ 2 := by
    unfold fator_atrito_calc
    rw [if_pos hre1, if_pos htermo1_pos]
  have hfator1_ub : fator_atrito_calc 50 100 rug 1.004e-6 ≤ 4 := by
    rw [hfator1_eq]
    have hsq : (16 : ℝ)⁻¹ ≤ Real.logb 10 (termo_log_calc 50 100 rug 1.004e-6) ^ 2 := by
      have h := pow_le_pow_left₀ (show (0 : ℝ) ≤ (4 : ℝ)⁻¹ by norm_num) hlogb1_lb 2
      linarith [h, show ((4 : ℝ)⁻¹) ^ 2 = (16 : ℝ)⁻¹ by norm_num]
    have h := div_le_div_of_nonneg_left (show (0 : ℝ) ≤ 0.25 by norm_num)
      (show (0 : ℝ) < (16 : ℝ)⁻¹ by norm_num) hsq
    linarith [h, show (0.25 : ℝ) / (16 : ℝ)⁻¹ = 4 by norm_num]
  have hfator1_nonneg : 0 ≤ fator_atrito_calc 50 100 rug 1.004e-6 := by
    rw [hfator1_eq]
    positivity
  -- principal losses at the two diameters
  have hp1_ub : (perda_carga_fin 50 100 100 rug 0 1.004e-6).principal ≤ 650 := by
    show fator_atrito_calc 50 100 rug 1.004e-6 * ((100 : ℝ) / (100 / 1000)) *
      (velocidade_calc 50 100 ^ 2 / (2 * 9.81)) ≤ 650
    have hq_ub := velocidade_50_100_sq_bound
    have hq_nonneg : 0 ≤ velocidade_calc 50 100 ^ 2 / (2 * 9.81) := by positivity
    rw [show ((100 : ℝ) / (100 / 1000)) = 1000 by norm_num]
    exact aux_prod_ub _ _ hfator1_ub hq_ub hq_nonneg
  have hp2_lb : (1e17 : ℝ) ≤ (perda_carga_fin 50 200 100 rug 0 1.004e-6).principal := by
    show (1e17 : ℝ) ≤ fator_atrito_calc 50 200 rug 1.004e-6 * ((100 : ℝ) / (200 / 1000)) *
      (velocidade_calc 50 200 ^ 2 / (2 * 9.81))
    have hq_lb := velocidade_50_200_sq_bound
    rw [show ((100 : ℝ) / (200 / 1000)) = 500 by norm_num]
    exact aux_prod_lb _ _ hfator2_lb hq_lb
  have hloc1 : (perda_carga_fin 50 100 100 rug 0 1.004e-6).localizada = 0 := by
    show (0 : ℝ) * (velocidade_calc 50 100 ^ 2 / (2 * 9.81)) = 0
    ring
  have hloc2 : (perda_carga_fin 50 200 100 rug 0 1.004e-6).localizada = 0 := by
    show (0 : ℝ) * (velocidade_calc 50 200 ^ 2 / (2 * 9.81)) = 0
    ring
  -- assemble the costs
  have hcost_eq : ∀ d : ℝ,
      custo_anual_pipeline 50 d 100 rug 0 1 998.2 1.004e-6 0.7 0.9 8 0.75 =
        50 / 3600 * 998.2 * 9.81 *
          (1 + (perda_carga_fin 50 d 100 rug 0 1.004e-6).principal +
            (perda_carga_fin 50 d 100 rug 0 1.004e-6).localizada) / 0.7 / 0.9 / 1000 *
          8 * 365 * 0.75 := by
    intro d
    simp only [custo_anual_pipeline, energia_core, if_pos (show (0 : ℝ) < 0.7 by norm_num),
      if_pos (show (0 : ℝ) < 0.9 by norm_num)]
  rw [hcost_eq 100, hcost_eq 200, hloc1, hloc2]
  exact aux_cost_compare _ _ hp1_ub hp2_lb

/-- A sequential `mapM` over a nonempty list whose step always fails fails
as a whole. -/
theorem mapM_eq_none {α β : Type} (f : α → Option β) (l : List α) (hne : l ≠ [])
    (hf : ∀ x, f x = none) : l.mapM f = none := by
  cases l with
  | nil => exact absurd rfl hne
  | cons a as => simp [List.mapM, List.mapM.loop, hf a]

/-- Every keyword dict accepted by `calcular_perda_carga` lacks
`eficiencia_bomba`, which `calcular_analise_energetica` requires, so the
sweep's loop body always fails on one of its two calls. -/
theorem passo_grafico_none (h_geometrica : ℝ) (kwargs : List (String × Val)) (d_mm : ℝ) :
    ((calcular_perda_carga_kw d_mm kwargs).bind fun perdas =>
      (calcular_analise_energetica_kw
          ((h_geometrica : ℝ) + perdas.principal + perdas.localizada) kwargs).map
        fun custo => (d_mm, custo)) = none := by
  cases hp : calcular_perda_carga_kw d_mm kwargs with
  | none => rfl
  | some p =>
    have hliga : liga_parametros perda_carga_parametros
        ("diametro_mm" :: kwargs.map Prod.fst) := by
      by_contra h
      rw [calcular_perda_carga_kw, if_neg h] at hp
      exact Option.noConfusion hp
    have hene : calcular_analise_energetica_kw
        ((h_geometrica : ℝ) + p.principal + p.localizada) kwargs = none := by
      rw [calcular_analise_energetica_kw, if_neg]
      rintro ⟨-, h2⟩
      have hb : "eficiencia_bomba" ∈ ("h_man" :: kwargs.map Prod.fst) :=
        h2 _ (by simp [analise_energetica_parametros])
      rcases List.mem_cons.mp hb with heq | hmem
      · exact absurd heq (by decide)
      · exact absurd (hliga.1 _ (List.mem_cons_of_mem _ hmem))
          (by simp [perda_carga_parametros])
    simp [hp, hene]

/-- C5: the sweep never returns its 20-pair series — forwarding the single
merged `**kwargs` dict to both callees makes one of the two calls raise
`TypeError` on the first loop iteration, for every keyword dict, in
particular for the app's own `params_gerais` call at source line 254. -/
theorem gerar_grafico_sempre_falha :
    (∀ (diametro_base_mm h_geometrica : ℝ) (kwargs : List (String × Val)),
      gerar_grafico_diametro_custo diametro_base_mm h_geometrica kwargs = none) ∧
    gerar_grafico_diametro_custo 100 15 params_gerais = none := by
  have hall : ∀ (diametro_base_mm h_geometrica : ℝ) (kwargs : List (String × Val)),
      gerar_grafico_diametro_custo diametro_base_mm h_geometrica kwargs = none := by
    intro diametro_base_mm h_geometrica kwargs
    unfold gerar_grafico_diametro_custo
    apply mapM_eq_none
    · intro h
      have hlen : (diametros_mm diametro_base_mm).length = 20 := by
        unfold diametros_mm linspace
        rw [List.length_map, List.length_range]
      rw [h] at hlen
      simp at hlen
    · intro d_mm
      exact passo_grafico_none h_geometrica kwargs d_mm
  exact ⟨hall, hall 100 15 params_gerais⟩

end Pumps
